import Mathlib

/-!
Verification development for the goon.ai permission-gated operation
dispatch pipeline.  The Rust core (permission resolver and checker, asset
selector, handle registry, dispatcher, turn loop) is described by the
repository's architecture document and specification; it is modelled here
from the spec.  The JavaScript SDK glue (`goon.prompt.show`) and the web
configuration UI (`savePack` in `App.tsx`) are translated directly from
the source.
-/

namespace GoonAI

/-- Modelled from the spec: the finite enumeration of grantable abilities
(`src/permissions/` permission types `Image, Video, Audio, Hypno,
Wallpaper, Prompt, Website`; the Rust module itself is not in the
repository snapshot). -/
inductive Capability where
  | image
  | video
  | audio
  | hypno
  | wallpaper
  | prompt
  | website
deriving DecidableEq, Repr

/-- Modelled from the spec: the Permission Resolver computes the effective
capability set as the intersection of the pack's declared requirements and
the user's grants (the Rust resolver is not in the repository snapshot). -/
def resolve (packRequirements userGrants : Finset Capability) : Finset Capability :=
  packRequirements ∩ userGrants

/- ----------------------------------------------------------------- -/
/- `goon.prompt.show` argument normalisation, from `src/unnamed/part_004`. -/

/-- A JavaScript `PromptOptions` object: every recognised option field,
`none` meaning the key is absent.  Numeric payloads are carried opaquely
as `Int`. -/
structure PromptOptions where
  text : Option String := none
  fontSize : Option Int := none
  color : Option (Int × Int × Int × Int) := none
  background : Option (Int × Int × Int × Int) := none
  padding : Option Int := none
  maxWidth : Option Int := none
  alignment : Option String := none
  duration : Option Int := none
  opacity : Option Int := none
  position : Option (Int × Int) := none
  size : Option (Int × Int) := none
  alwaysOnTop : Option Bool := none
  clickThrough : Option Bool := none
  decorations : Option Bool := none
deriving DecidableEq, Repr

/-- Per-key JavaScript object spread `\x7b ...base, ...over \x7d`: a key
present in `over` overrides the one in `base`. -/
def orKey {α : Type} (over base : Option α) : Option α :=
  match over with
  | some x => some x
  | none => base

/-- JavaScript spread merge of two `PromptOptions` objects, the second
overriding the first key by key. -/
def spreadOver (base over : PromptOptions) : PromptOptions where
  text := orKey over.text base.text
  fontSize := orKey over.fontSize base.fontSize
  color := orKey over.color base.color
  background := orKey over.background base.background
  padding := orKey over.padding base.padding
  maxWidth := orKey over.maxWidth base.maxWidth
  alignment := orKey over.alignment base.alignment
  duration := orKey over.duration base.duration
  opacity := orKey over.opacity base.opacity
  position := orKey over.position base.position
  size := orKey over.size base.size
  alwaysOnTop := orKey over.alwaysOnTop base.alwaysOnTop
  clickThrough := orKey over.clickThrough base.clickThrough
  decorations := orKey over.decorations base.decorations

/-- The union type `string | PromptOptions` of the first argument of
`goon.prompt.show`. -/
inductive PromptArg where
  | str (s : String)
  | obj (o : PromptOptions)
deriving DecidableEq, Repr

/-- The value `goon.prompt.show` forwards to `op_show_prompt`
(`src/unnamed/part_004`): for a string first argument it builds
`\x7b text: textOrOptions, ...options \x7d`; for an object first argument
it forwards that object unchanged. -/
def goonPromptShowForward (textOrOptions : PromptArg)
    (options : Option PromptOptions) : PromptOptions :=
  match textOrOptions with
  | .str s => spreadOver { text := some s } (options.getD {})
  | .obj o => o

/- ----------------------------------------------------------------- -/
/- `savePack` tag clean-up, from `src/web/src/App.tsx`. -/

/-- One entry of `packConfig.assets.<type>`: a file path plus a tag list. -/
structure TaggedAsset where
  path : String
  tags : List String
deriving DecidableEq, Repr

/-- One entry of `packConfig.moods`. -/
structure MoodConfig where
  name : String
  description : String
  moodPrompt : Option String
  tags : List String
deriving DecidableEq, Repr

/-- One entry of `packConfig.websites`. -/
structure WebsiteConfig where
  name : String
  url : String
  description : String
  tags : List String
deriving DecidableEq, Repr

/-- The `assets` object of a pack config; each asset type key may be
absent. -/
structure AssetsConfig where
  image : Option (List TaggedAsset)
  wallpaper : Option (List TaggedAsset)
  video : Option (List TaggedAsset)
  audio : Option (List TaggedAsset)
deriving DecidableEq, Repr

/-- The `meta` object of a pack config. -/
structure PackMeta where
  name : String
  version : String
  permissions : Option (List String)
deriving DecidableEq, Repr

/-- A pack configuration as edited by the web UI. -/
structure PackConfig where
  meta : PackMeta
  assets : AssetsConfig
  moods : Option (List MoodConfig)
  websites : Option (List WebsiteConfig)
  prompts : Option String
deriving DecidableEq, Repr

/-- The tag clean-up `tags.map(t =&gt; t.trim()).filter(Boolean)` applied by
`savePack`: trim each tag, drop the ones that became the empty string. -/
def cleanTags (tags : List String) : List String :=
  (tags.map String.trim).filter (fun t => t != "")

/-- Clean the tag list of one asset entry, keeping its other fields. -/
def cleanAssetTags (a : TaggedAsset) : TaggedAsset :=
  { a with tags := cleanTags a.tags }

/-- Clean the tag list of one mood entry, keeping its other fields. -/
def cleanMoodTags (m : MoodConfig) : MoodConfig :=
  { m with tags := cleanTags m.tags }

/-- Clean the tag list of one website entry, keeping its other fields. -/
def cleanWebsiteTags (w : WebsiteConfig) : WebsiteConfig :=
  { w with tags := cleanTags w.tags }

/-- The `cleanConfig` object `savePack` posts (`src/web/src/App.tsx`,
lines 75-97): tags of image assets, wallpaper assets, moods and websites
are cleaned; everything else is spread through unchanged. -/
def savePackClean (c : PackConfig) : PackConfig :=
  { c with
    assets := { c.assets with
      image := c.assets.image.map (fun l => l.map cleanAssetTags)
      wallpaper := c.assets.wallpaper.map (fun l => l.map cleanAssetTags) }
    moods := c.moods.map (fun l => l.map cleanMoodTags)
    websites := c.websites.map (fun l => l.map cleanWebsiteTags) }

/- ----------------------------------------------------------------- -/
/- Asset Selector.  The Rust selector is not in the repository snapshot;
   the model follows the spec's four-tier algorithm. -/

/-- Modelled from the spec: one selectable asset of the content catalog,
with its category, tag set and opaque content reference. -/
structure ContentItem where
  category : String
  tags : List String
  contentRef : String
deriving DecidableEq, Repr

/-- Modelled from the spec: a named mood, i.e. a contextual tag filter. -/
structure Mood where
  name : String
  tags : List String
deriving DecidableEq, Repr

/-- Modelled from the spec: an abstract selection request, a category plus
optional extra tags (the empty list meaning no tags were provided). -/
structure AssetQuery where
  category : String
  tags : List String
deriving DecidableEq, Repr

/-- Non-empty set intersection of two tag lists (the spec's tag-matching
relation: intersection non-empty, not subset). -/
def tagsIntersect (a b : List String) : Bool :=
  a.any (fun t => b.contains t)

/-- The constraint a query's tag list imposes on an item: an empty query
tag list is no additional constraint; otherwise the intersection must be
non-empty. -/
def queryConstraint (qtags itemTags : List String) : Bool :=
  qtags.isEmpty || tagsIntersect itemTags qtags

/-- All catalog items in the query's category (the spec's tier 4). -/
def categoryItems (catalog : List ContentItem) (q : AssetQuery) : List ContentItem :=
  catalog.filter (fun i => i.category == q.category)

/-- Modelled from the spec: tier 1 — items of the category whose tags
intersect both the active mood's tags and the query's tags (the latter
only if query tags were provided). -/
def tier1 (catalog : List ContentItem) (q : AssetQuery) (mood : Mood) : List ContentItem :=
  (categoryItems catalog q).filter
    (fun i => tagsIntersect i.tags mood.tags && queryConstraint q.tags i.tags)

/-- Modelled from the spec: tier 2 — items matching the mood tags only. -/
def tier2 (catalog : List ContentItem) (q : AssetQuery) (mood : Mood) : List ContentItem :=
  (categoryItems catalog q).filter (fun i => tagsIntersect i.tags mood.tags)

/-- Modelled from the spec: tier 3 — items matching the query tags only
(no constraint when no query tags were provided). -/
def tier3 (catalog : List ContentItem) (q : AssetQuery) : List ContentItem :=
  (categoryItems catalog q).filter (fun i => queryConstraint q.tags i.tags)

/-- The four candidate tiers, in the order the selector evaluates them. -/
def selectTiers (catalog : List ContentItem) (q : AssetQuery) (mood : Mood) :
    List (List ContentItem) :=
  [tier1 catalog q mood, tier2 catalog q mood, tier3 catalog q, categoryItems catalog q]

/-- First non-empty list among a list of candidate lists;
`[]` when all are empty. -/
def firstNonempty {α : Type} : List (List α) → List α
  | [] => []
  | t :: ts => if t.isEmpty then firstNonempty ts else t

/-- The winning candidate tier for a query under the active mood. -/
def candidates (catalog : List ContentItem) (q : AssetQuery) (mood : Mood) :
    List ContentItem :=
  firstNonempty (selectTiers catalog q mood)

/-- The selector's failure. -/
inductive SelectError where
  | assetNotFound
deriving DecidableEq, Repr

/-- Modelled from the spec: `select` resolves a query against the catalog
under the active mood: the first non-empty tier wins and one of its
members is drawn at random — the random draw is modelled by an externally
supplied natural number `r`, reduced modulo the tier size so every member
is picked by some `r`. -/
def select (q : AssetQuery) (mood : Mood) (catalog : List ContentItem)
    (r : Nat) : Except SelectError ContentItem :=
  match candidates catalog q mood with
  | [] => .error .assetNotFound
  | x :: xs =>
      .ok ((x :: xs).get ⟨r % (x :: xs).length, Nat.mod_lt r (Nat.succ_pos xs.length)⟩)

/- Concrete fixtures, taken from the spec's testable-properties section:
   catalog items A and B in the image category, mood tags
   nature and calm, query tag beach. -/

/-- Test item A from the spec: image category, tags beach and calm. -/
def itemA : ContentItem := ⟨"image", ["beach", "calm"], "A"⟩

/-- Test item B from the spec: image category, tag city. -/
def itemB : ContentItem := ⟨"image", ["city"], "B"⟩

/-- Test catalog of the spec's testable-properties section. -/
def catalogAB : List ContentItem := [itemA, itemB]

/-- Test mood with tags nature and calm. -/
def moodNC : Mood := ⟨"calmMood", ["nature", "calm"]⟩

/-- Test query for the image category with tag beach. -/
def qBeach : AssetQuery := ⟨"image", ["beach"]⟩

/-- Test query for the video category, empty in `catalogAB`. -/
def qVideo : AssetQuery := ⟨"video", []⟩

/- ----------------------------------------------------------------- -/
/- Handle Registry.  The Rust registry is not in the repository snapshot;
   the model follows the spec's operations and lifecycle states. -/

/-- Modelled from the spec: the lifecycle state of a handle. -/
inductive HandleState where
  | active
  | closed
deriving DecidableEq, Repr

/-- Modelled from the spec: the mutable attribute snapshot of a handle
(opacity, position, size, volume, loop flag; numeric payloads carried as
`Int`). -/
structure HandleAttrs where
  opacity : Int := 1
  posX : Int := 0
  posY : Int := 0
  width : Int := 0
  height : Int := 0
  volume : Int := 0
  loopFlag : Bool := false
deriving DecidableEq, Repr

/-- A partial attribute update; `none` leaves the attribute unchanged. -/
structure AttrsDelta where
  opacity : Option Int := none
  posX : Option Int := none
  posY : Option Int := none
  width : Option Int := none
  height : Option Int := none
  volume : Option Int := none
  loopFlag : Option Bool := none
deriving DecidableEq, Repr

/-- Apply an attribute delta to a snapshot, field by field. -/
def applyDelta (a : HandleAttrs) (d : AttrsDelta) : HandleAttrs where
  opacity := d.opacity.getD a.opacity
  posX := d.posX.getD a.posX
  posY := d.posY.getD a.posY
  width := d.width.getD a.width
  height := d.height.getD a.height
  volume := d.volume.getD a.volume
  loopFlag := d.loopFlag.getD a.loopFlag

/-- Modelled from the spec: a reference to a live host object, with its
category, lifecycle state and attribute snapshot. -/
structure Handle where
  category : String
  state : HandleState
  attrs : HandleAttrs
deriving DecidableEq, Repr

/-- Modelled from the spec: the Handle Registry — the next fresh opaque
id and the association of ids to handles. -/
structure Registry where
  nextId : Nat
  handles : List (Nat × Handle)
deriving DecidableEq, Repr

/-- The registry at process start: no handles, first id zero. -/
def Registry.emptyReg : Registry := ⟨0, []⟩

/-- Look a handle up by id. -/
def Registry.lookup (reg : Registry) (id : Nat) : Option Handle :=
  (reg.handles.find? (fun p => p.1 == id)).map Prod.snd

/-- Modelled from the spec: `create(category, attrs)` allocates a fresh
id (never reused: ids increase monotonically within the process lifetime)
and records an Active handle under it. -/
def Registry.create (reg : Registry) (cat : String) (attrs : HandleAttrs) :
    Nat × Registry :=
  (reg.nextId, ⟨reg.nextId + 1, (reg.nextId, ⟨cat, .active, attrs⟩) :: reg.handles⟩)

/-- The registry's failure: an unknown or closed id. -/
inductive RegError where
  | invalidHandle
deriving DecidableEq, Repr

/-- Replace the handle stored under an id, leaving other entries and the
id counter alone. -/
def Registry.setHandle (reg : Registry) (id : Nat) (h : Handle) : Registry :=
  ⟨reg.nextId, reg.handles.map (fun p => if p.1 == id then (p.1, h) else p)⟩

/-- Modelled from the spec: `mutate(id, attrsDelta)` — an unknown or
Closed id fails with `InvalidHandle`; otherwise the delta is applied
all-or-nothing. -/
def Registry.mutate (reg : Registry) (id : Nat) (d : AttrsDelta) :
    Except RegError Registry :=
  match reg.lookup id with
  | none => .error .invalidHandle
  | some h =>
    match h.state with
    | .closed => .error .invalidHandle
    | .active => .ok (reg.setHandle id { h with attrs := applyDelta h.attrs d })

/-- Modelled from the spec: `close(id)` — an unknown or Closed id fails
with `InvalidHandle` (a double close is an error, not a silent no-op);
an Active handle transitions to Closed. -/
def Registry.close (reg : Registry) (id : Nat) : Except RegError Registry :=
  match reg.lookup id with
  | none => .error .invalidHandle
  | some h =>
    match h.state with
    | .closed => .error .invalidHandle
    | .active => .ok (reg.setHandle id { h with state := .closed })

/-- One script-issued registry operation, as routed by the Dispatcher. -/
inductive RegOp where
  | createOp (cat : String) (attrs : HandleAttrs)
  | mutateOp (id : Nat) (d : AttrsDelta)
  | closeOp (id : Nat)
deriving DecidableEq, Repr

/-- Run one registry operation, keeping the registry unchanged when the
operation fails. -/
def runOp (reg : Registry) (op : RegOp) : Registry :=
  match op with
  | .createOp c a => (reg.create c a).2
  | .mutateOp id d =>
    match reg.mutate id d with
    | .ok r => r
    | .error _ => reg
  | .closeOp id =>
    match reg.close id with
    | .ok r => r
    | .error _ => reg

/-- Run a sequence of registry operations. -/
def runOps : Registry → List RegOp → Registry
  | reg, [] => reg
  | reg, op :: ops => runOps (runOp reg op) ops

/-- The ids handed out by the `create` operations of a run, in order. -/
def createdIds : Registry → List RegOp → List Nat
  | _, [] => []
  | reg, .createOp c a :: ops =>
    reg.nextId :: createdIds (runOp reg (.createOp c a)) ops
  | reg, .mutateOp id d :: ops => createdIds (runOp reg (.mutateOp id d)) ops
  | reg, .closeOp id :: ops => createdIds (runOp reg (.closeOp id)) ops

/- ----------------------------------------------------------------- -/
/- Operation Dispatcher.  The Rust dispatcher is not in the repository
   snapshot; the model follows the spec's per-call state machine. -/

/-- Modelled from the spec: one script-to-host request for a show/play
operation — its name, required capability, selection query and initial
window attributes. -/
structure OperationCall where
  name : String
  requiredCap : Capability
  query : AssetQuery
  attrs : HandleAttrs
deriving Repr

/-- The result the Dispatcher returns across the suspension boundary. -/
inductive DispatchResult where
  | ok (id : Nat)
  | permissionDenied
  | assetNotFound
  | hostOperationError
deriving DecidableEq, Repr

/-- Everything observable about one dispatched call: the returned result,
the registry afterwards, the assets selected and the executor
invocations performed. -/
structure DispatchOutcome where
  result : DispatchResult
  registry : Registry
  selections : List ContentItem
  executorCalls : List ContentItem
deriving Repr

/-- Modelled from the spec: the Dispatcher's per-call state machine for a
show/play operation — check the capability first, then select an asset,
then invoke the executor (modelled as a boolean success function), then
record a fresh Active handle; every early exit performs none of the later
steps. -/
def dispatch (eff : Finset Capability) (mood : Mood)
    (catalog : List ContentItem) (executor : ContentItem → Bool)
    (call : OperationCall) (reg : Registry) (r : Nat) : DispatchOutcome :=
  if call.requiredCap ∈ eff then
    match select call.query mood catalog r with
    | .error _ => ⟨.assetNotFound, reg, [], []⟩
    | .ok item =>
      if executor item then
        let created := reg.create call.query.category call.attrs
        ⟨.ok created.1, created.2, [item], [item]⟩
      else ⟨.hostOperationError, reg, [item], [item]⟩
  else ⟨.permissionDenied, reg, [], []⟩

/- ----------------------------------------------------------------- -/
/- Compile-Execute Turn Loop.  The Rust loop is not in the repository
   snapshot; the model follows the spec's state machine and retry bound. -/

/-- What one generation attempt of a turn does: the compiler rejects the
script, or the script executes and fails after issuing some dispatcher
calls, or it executes to completion. -/
inductive AttemptBehavior where
  | compileFail
  | execFail (ops : List RegOp)
  | execComplete (ops : List RegOp)

/-- How a turn ends. -/
inductive TurnOutcome where
  | complete
  | abort
deriving DecidableEq, Repr

/-- The observable end of a turn: its outcome, the registry it leaves
behind, how many compile attempts were made and how many dispatcher
calls the scripts issued. -/
structure TurnEnd where
  outcome : TurnOutcome
  registry : Registry
  compileAttempts : Nat
  dispatcherCalls : Nat
deriving DecidableEq, Repr

/-- Modelled from the spec: the fixed retry bound shared by compile and
execution failures within one turn (reference value three). -/
def maxRetries : Nat := 3

/-- Modelled from the spec: the turn loop — compile, execute, retry on
compile or execution failure while attempts remain, otherwise abort;
aborting performs no registry operation of its own. -/
def turnLoopAux (beh : Nat → AttemptBehavior) :
    Nat → Nat → Registry → Nat → Nat → TurnEnd
  | 0, _, reg, comp, disp => ⟨.abort, reg, comp, disp⟩
  | fuel + 1, i, reg, comp, disp =>
    match beh i with
    | .compileFail => turnLoopAux beh fuel (i + 1) reg (comp + 1) disp
    | .execFail ops =>
      turnLoopAux beh fuel (i + 1) (runOps reg ops) (comp + 1)
        (disp + ops.length)
    | .execComplete ops =>
      ⟨.complete, runOps reg ops, comp + 1, disp + ops.length⟩

/-- One full turn. -/
def runTurn (beh : Nat → AttemptBehavior) (reg : Registry) : TurnEnd :=
  turnLoopAux beh maxRetries 0 reg 0 0

/-- The registry operations the scripts of a turn issue before the turn
ends, collected attempt by attempt. -/
def turnOpsAux (beh : Nat → AttemptBehavior) : Nat → Nat → List RegOp
  | 0, _ => []
  | fuel + 1, i =>
    match beh i with
    | .compileFail => turnOpsAux beh fuel (i + 1)
    | .execFail ops => ops ++ turnOpsAux beh fuel (i + 1)
    | .execComplete ops => ops

/-- All registry operations issued during one turn. -/
def turnOps (beh : Nat → AttemptBehavior) : List RegOp :=
  turnOpsAux beh maxRetries 0

/- Concrete fixtures for registry and turn-loop witnesses. -/

/-- A registry holding one already-closed image handle under id zero. -/
def regClosed : Registry := ⟨1, [(0, ⟨"image", .closed, {}⟩)]⟩

/-- A behaviour whose every generation attempt fails to compile. -/
def behAllFail : Nat → AttemptBehavior := fun _ => .compileFail

/-- A behaviour failing to compile on the first three attempts and
completing on the fourth. -/
def behFailThree : Nat → AttemptBehavior := fun i =>
  if i < 3 then .compileFail else .execComplete []

/-- A show/play call requiring the audio capability. -/
def callAudio : OperationCall := ⟨"audio.play", .audio, ⟨"audio", []⟩, {}⟩

/-- A small pack configuration with untrimmed and empty tags, used to
witness the tag clean-up. -/
def samplePack : PackConfig :=
  ⟨⟨"p", "1", some ["image"]⟩,
   ⟨some [⟨"a.png", [" beach ", ""]⟩], none, some [⟨"v.mp4", [" x "]⟩], none⟩,
   some [⟨"calm", "d", none, ["", " nature"]⟩], none, none⟩

/- ----------------------------------------------------------------- -/
/- Helper lemmas. -/

theorem orKey_none {α : Type} (a : Option α) : orKey a none = a := by
  cases a <;> rfl

theorem mem_cleanTags_ne_empty (ts : List String) :
    ∀ t ∈ cleanTags ts, t ≠ "" := by
  intro t ht
  have h2 := (List.mem_filter.mp ht).2
  simpa using h2

theorem tagsIntersect_iff (a b : List String) :
    tagsIntersect a b = true ↔ ∃ t, t ∈ a ∧ t ∈ b := by
  simp [tagsIntersect, List.any_eq_true]

theorem queryConstraint_iff (qtags itemTags : List String) :
    queryConstraint qtags itemTags = true ↔
      qtags = [] ∨ ∃ t, t ∈ itemTags ∧ t ∈ qtags := by
  simp [queryConstraint, tagsIntersect_iff, List.isEmpty_iff]

theorem mem_categoryItems (catalog : List ContentItem) (q : AssetQuery)
    (x : ContentItem) :
    x ∈ categoryItems catalog q ↔ x ∈ catalog ∧ x.category = q.category := by
  simp [categoryItems, List.mem_filter]

theorem firstNonempty_cons_ne {α : Type} (t : List α) (ts : List (List α))
    (h : t ≠ []) : firstNonempty (t :: ts) = t := by
  cases t with
  | nil => exact absurd rfl h
  | cons a l => rfl

theorem firstNonempty_cons_nil {α : Type} (ts : List (List α)) :
    firstNonempty ([] :: ts) = firstNonempty ts := rfl

theorem firstNonempty_eq_nil {α : Type} {ts : List (List α)}
    (h : firstNonempty ts = []) : ∀ t ∈ ts, t = [] := by
  induction ts with
  | nil => intro t ht; cases ht
  | cons t ts ih =>
    intro u hu
    cases t with
    | nil =>
      rcases hu with _ | hu
      · rfl
      · exact ih (by simpa [firstNonempty] using h) u (by assumption)
    | cons a l => simp [firstNonempty] at h

theorem firstNonempty_mem {α : Type} {ts : List (List α)}
    (h : firstNonempty ts ≠ []) : firstNonempty ts ∈ ts := by
  induction ts with
  | nil => exact absurd rfl h
  | cons t ts ih =>
    cases t with
    | nil =>
      rw [firstNonempty_cons_nil] at h ⊢
      exact List.mem_cons_of_mem _ (ih h)
    | cons a l => exact List.mem_cons_self _ _

theorem candidates_eq_nil_iff (catalog : List ContentItem) (q : AssetQuery)
    (mood : Mood) :
    candidates catalog q mood = [] ↔ categoryItems catalog q = [] := by
  constructor
  · intro h
    exact firstNonempty_eq_nil h (categoryItems catalog q) (by
      simp [selectTiers])
  · intro h
    simp [candidates, selectTiers, tier1, tier2, tier3, h, firstNonempty]

theorem candidates_subset_categoryItems (catalog : List ContentItem)
    (q : AssetQuery) (mood : Mood) :
    ∀ x ∈ candidates catalog q mood, x ∈ categoryItems catalog q := by
  intro x hx
  have hne : candidates catalog q mood ≠ [] := by
    intro h; rw [h] at hx; cases hx
  have hmem : firstNonempty (selectTiers catalog q mood)
      ∈ selectTiers catalog q mood := firstNonempty_mem hne
  have hin : candidates catalog q mood ∈ selectTiers catalog q mood := hmem
  simp only [selectTiers, List.mem_cons, List.not_mem_nil, or_false] at hin
  rcases hin with h | h | h | h <;> rw [h] at hx
  · exact List.mem_of_mem_filter hx
  · exact List.mem_of_mem_filter hx
  · exact List.mem_of_mem_filter hx
  · exact hx

theorem select_ok_mem_candidates (q : AssetQuery) (mood : Mood)
    (catalog : List ContentItem) (r : Nat) (item : ContentItem)
    (h : select q mood catalog r = .ok item) :
    item ∈ candidates catalog q mood := by
  unfold select at h
  cases hc : candidates catalog q mood with
  | nil => rw [hc] at h; cases h
  | cons x xs =>
    rw [hc] at h
    simp only [Except.ok.injEq] at h
    rw [← h]
    exact List.get_mem _ _ _

theorem select_reaches_candidate (q : AssetQuery) (mood : Mood)
    (catalog : List ContentItem) (item : ContentItem)
    (h : item ∈ candidates catalog q mood) :
    ∃ r, select q mood catalog r = .ok item := by
  cases hc : candidates catalog q mood with
  | nil => rw [hc] at h; cases h
  | cons x xs =>
    rw [hc] at h
    obtain ⟨n, hn⟩ := List.mem_iff_get.mp h
    refine ⟨n, ?_⟩
    unfold select
    rw [hc]
    have hval : (n : Nat) % (x :: xs).length = (n : Nat) :=
      Nat.mod_eq_of_lt n.isLt
    simp only [Except.ok.injEq]
    rw [← hn]
    congr 1
    exact Fin.ext hval

theorem find_map_set (l : List (Nat × Handle)) (id : Nat) (h : Handle) :
    (l.map (fun p => if p.1 == id then (p.1, h) else p)).find?
        (fun p => p.1 == id)
      = (l.find? (fun p => p.1 == id)).map (fun p => (p.1, h)) := by
  induction l with
  | nil => rfl
  | cons p l ih =>
    cases hp : (p.1 == id) with
    | true => simp [List.find?, hp]
    | false => simpa [List.find?, hp] using ih

theorem lookup_setHandle (reg : Registry) (id : Nat) (h : Handle) :
    (reg.setHandle id h).lookup id = (reg.lookup id).map (fun _ => h) := by
  unfold Registry.lookup Registry.setHandle
  rw [find_map_set]
  cases reg.handles.find? (fun p => p.1 == id) <;> rfl

theorem mutate_ok_inv (reg : Registry) (id : Nat) (d : AttrsDelta)
    (reg' : Registry) (h : reg.mutate id d = .ok reg') :
    ∃ hh, reg.lookup id = some hh ∧ hh.state = .active ∧
      reg' = reg.setHandle id { hh with attrs := applyDelta hh.attrs d } := by
  unfold Registry.mutate at h
  cases hl : reg.lookup id with
  | none => rw [hl] at h; simp at h
  | some hh =>
    rw [hl] at h
    cases hh with
    | mk cat st attrs =>
      cases st with
      | closed => simp at h
      | active =>
        simp only [Except.ok.injEq] at h
        exact ⟨⟨cat, .active, attrs⟩, rfl, rfl, h.symm⟩

theorem close_ok_inv (reg : Registry) (id : Nat) (reg' : Registry)
    (h : reg.close id = .ok reg') :
    ∃ hh, reg.lookup id = some hh ∧ hh.state = .active ∧
      reg' = reg.setHandle id { hh with state := .closed } := by
  unfold Registry.close at h
  cases hl : reg.lookup id with
  | none => rw [hl] at h; simp at h
  | some hh =>
    rw [hl] at h
    cases hh with
    | mk cat st attrs =>
      cases st with
      | closed => simp at h
      | active =>
        simp only [Except.ok.injEq] at h
        exact ⟨⟨cat, .active, attrs⟩, rfl, rfl, h.symm⟩

theorem mutate_close_error_of_none (reg : Registry) (id : Nat)
    (hl : reg.lookup id = none) :
    (∀ d, reg.mutate id d = .error .invalidHandle) ∧
    reg.close id = .error .invalidHandle := by
  constructor
  · intro d; unfold Registry.mutate; rw [hl]
  · unfold Registry.close; rw [hl]

theorem mutate_close_error_of_closed (reg : Registry) (id : Nat) (hh : Handle)
    (hl : reg.lookup id = some hh) (hs : hh.state = .closed) :
    (∀ d, reg.mutate id d = .error .invalidHandle) ∧
    reg.close id = .error .invalidHandle := by
  obtain ⟨cat, st, attrs⟩ := hh
  dsimp only at hs
  subst hs
  constructor
  · intro d; unfold Registry.mutate; rw [hl]
  · unfold Registry.close; rw [hl]

theorem nextId_mono_runOp (reg : Registry) (op : RegOp) :
    reg.nextId ≤ (runOp reg op).nextId := by
  cases op with
  | createOp c a => exact Nat.le_succ _
  | mutateOp id d =>
    show reg.nextId ≤ (match reg.mutate id d with
      | Except.ok r => r
      | Except.error _ => reg).nextId
    cases hm : reg.mutate id d with
    | error e => exact Nat.le_refl _
    | ok r =>
      obtain ⟨hh, _, _, hr⟩ := mutate_ok_inv reg id d r hm
      rw [hr]; exact Nat.le_refl _
  | closeOp id =>
    show reg.nextId ≤ (match reg.close id with
      | Except.ok r => r
      | Except.error _ => reg).nextId
    cases hm : reg.close id with
    | error e => exact Nat.le_refl _
    | ok r =>
      obtain ⟨hh, _, _, hr⟩ := close_ok_inv reg id r hm
      rw [hr]; exact Nat.le_refl _

theorem createdIds_lower_bound (ops : List RegOp) :
    ∀ reg : Registry, ∀ x ∈ createdIds reg ops, reg.nextId ≤ x := by
  induction ops with
  | nil => intro reg x hx; cases hx
  | cons op ops ih =>
    intro reg x hx
    cases op with
    | createOp c a =>
      rcases hx with _ | hx
      · exact le_refl _
      · exact le_trans (nextId_mono_runOp reg (.createOp c a))
          (ih (runOp reg (.createOp c a)) x (by assumption))
    | mutateOp id d =>
      exact le_trans (nextId_mono_runOp reg (.mutateOp id d))
        (ih (runOp reg (.mutateOp id d)) x hx)
    | closeOp id =>
      exact le_trans (nextId_mono_runOp reg (.closeOp id))
        (ih (runOp reg (.closeOp id)) x hx)

theorem createdIds_pairwise_lt (ops : List RegOp) :
    ∀ reg : Registry, (createdIds reg ops).Pairwise (· < ·) := by
  induction ops with
  | nil => intro reg; exact List.Pairwise.nil
  | cons op ops ih =>
    intro reg
    cases op with
    | createOp c a =>
      refine List.Pairwise.cons ?_ (ih (runOp reg (.createOp c a)))
      intro y hy
      have hb := createdIds_lower_bound ops (runOp reg (.createOp c a)) y hy
      have : reg.nextId + 1 ≤ y := hb
      omega
    | mutateOp id d => exact ih (runOp reg (.mutateOp id d))
    | closeOp id => exact ih (runOp reg (.closeOp id))

theorem runOps_append (a b : List RegOp) :
    ∀ reg : Registry, runOps reg (a ++ b) = runOps (runOps reg a) b := by
  induction a with
  | nil => intro reg; rfl
  | cons op a ih => intro reg; exact ih (runOp reg op)

theorem turnLoop_registry (beh : Nat → AttemptBehavior) :
    ∀ fuel i reg comp disp,
      (turnLoopAux beh fuel i reg comp disp).registry
        = runOps reg (turnOpsAux beh fuel i) := by
  intro fuel
  induction fuel with
  | zero => intro i reg comp disp; rfl
  | succ fuel ih =>
    intro i reg comp disp
    cases hb : beh i with
    | compileFail => simp [turnLoopAux, turnOpsAux, hb, ih]
    | execFail ops => simp [turnLoopAux, turnOpsAux, hb, runOps_append, ih]
    | execComplete ops => simp [turnLoopAux, turnOpsAux, hb]

/- ----------------------------------------------------------------- -/
/- Theorems. -/

/-- Claim C1: `resolve` returns exactly the set intersection of the pack
requirements and the user grants, is total (a pure function, the empty
set being a valid result), never a superset of either input, and calling
it twice with unchanged inputs yields identical effective sets. -/
theorem resolve_exact_intersection (p u : Finset Capability) :
    (∀ c, c ∈ resolve p u ↔ c ∈ p ∧ c ∈ u) ∧
    resolve p u ⊆ p ∧
    resolve p u ⊆ u ∧
    resolve ∅ u = ∅ ∧
    resolve p u = resolve p u := by
  refine ⟨fun c => ?_, ?_, ?_, ?_, rfl⟩
  · simp [resolve]
  · exact Finset.inter_subset_left
  · exact Finset.inter_subset_right
  · simp [resolve]

/-- Claim C9: with a string first argument, `goon.prompt.show` forwards
the merge of `\x7b text: s \x7d` with the options object, so a `text` key
present in the options overrides the positional string while every other
field comes from the options; with an object first argument the object is
forwarded as-is and the second argument is ignored. -/
theorem goonPromptShow_forwarding (s : String) (o : PromptOptions)
    (o2 : Option PromptOptions) :
    ((goonPromptShowForward (.str s) (some o)).text
        = match o.text with
          | some t => some t
          | none => some s) ∧
    (goonPromptShowForward (.str s) (some o)).fontSize = o.fontSize ∧
    (goonPromptShowForward (.str s) (some o)).color = o.color ∧
    (goonPromptShowForward (.str s) (some o)).background = o.background ∧
    (goonPromptShowForward (.str s) (some o)).padding = o.padding ∧
    (goonPromptShowForward (.str s) (some o)).maxWidth = o.maxWidth ∧
    (goonPromptShowForward (.str s) (some o)).alignment = o.alignment ∧
    (goonPromptShowForward (.str s) (some o)).duration = o.duration ∧
    (goonPromptShowForward (.str s) (some o)).opacity = o.opacity ∧
    (goonPromptShowForward (.str s) (some o)).position = o.position ∧
    (goonPromptShowForward (.str s) (some o)).size = o.size ∧
    (goonPromptShowForward (.str s) (some o)).alwaysOnTop = o.alwaysOnTop ∧
    (goonPromptShowForward (.str s) (some o)).clickThrough = o.clickThrough ∧
    (goonPromptShowForward (.str s) (some o)).decorations = o.decorations ∧
    goonPromptShowForward (.str s) none = { text := some s } ∧
    goonPromptShowForward (.obj o) o2 = o := by
  refine ⟨?_, orKey_none _, orKey_none _, orKey_none _, orKey_none _,
    orKey_none _, orKey_none _, orKey_none _, orKey_none _, orKey_none _,
    orKey_none _, orKey_none _, orKey_none _, orKey_none _, rfl, rfl⟩
  cases h : o.text <;>
    simp [goonPromptShowForward, spreadOver, orKey, h]

/-- Claim C10: `savePack` posts a config whose image-asset, wallpaper-asset,
mood and website tag lists are whitespace-trimmed with empty-string tags
removed, while the other fields of those entries, the `video` and `audio`
asset lists, the metadata and the prompts pass through unchanged; no empty
tag survives in a cleaned list. -/
theorem savePack_cleans_tags (c : PackConfig) :
    (savePackClean c).meta = c.meta ∧
    (savePackClean c).prompts = c.prompts ∧
    (savePackClean c).assets.video = c.assets.video ∧
    (savePackClean c).assets.audio = c.assets.audio ∧
    (savePackClean c).assets.image = c.assets.image.map (fun l =>
      l.map (fun a => { a with
        tags := (a.tags.map String.trim).filter (fun t => t != "") })) ∧
    (savePackClean c).assets.wallpaper = c.assets.wallpaper.map (fun l =>
      l.map (fun a => { a with
        tags := (a.tags.map String.trim).filter (fun t => t != "") })) ∧
    (savePackClean c).moods = c.moods.map (fun l =>
      l.map (fun m => { m with
        tags := (m.tags.map String.trim).filter (fun t => t != "") })) ∧
    (savePackClean c).websites = c.websites.map (fun l =>
      l.map (fun w => { w with
        tags := (w.tags.map String.trim).filter (fun t => t != "") })) ∧
    (∀ l, (savePackClean c).assets.image = some l →
      ∀ a ∈ l, ∀ t ∈ a.tags, t ≠ "") ∧
    (∀ l, (savePackClean c).moods = some l →
      ∀ m ∈ l, ∀ t ∈ m.tags, t ≠ "") := by
  refine ⟨rfl, rfl, rfl, rfl, rfl, rfl, rfl, rfl, ?_, ?_⟩
  · intro l hl a ha t ht
    cases himg : c.assets.image with
    | none => simp [savePackClean, himg] at hl
    | some il =>
      have hl2 : il.map cleanAssetTags = l := by
        simpa [savePackClean, himg] using hl
      rw [← hl2] at ha
      rcases List.mem_map.mp ha with ⟨a0, _, rfl⟩
      exact mem_cleanTags_ne_empty a0.tags t ht
  · intro l hl m hm t ht
    cases hmd : c.moods with
    | none => simp [savePackClean, hmd] at hl
    | some ml =>
      have hl2 : ml.map cleanMoodTags = l := by
        simpa [savePackClean, hmd] using hl
      rw [← hl2] at hm
      rcases List.mem_map.mp hm with ⟨m0, _, rfl⟩
      exact mem_cleanTags_ne_empty m0.tags t ht

/-- Witness for C10 at a concrete pack configuration: the video asset
list passes through unchanged and the cleaned image list has no empty
tag. -/
theorem savePack_cleans_tags_witness :
    (savePackClean samplePack).assets.video = samplePack.assets.video ∧
    ∀ a ∈ [({ path := "a.png", tags := [" beach ", ""] } : TaggedAsset)].map
      (fun a => { a with
        tags := (a.tags.map String.trim).filter (fun t => t != "") }),
      ∀ t ∈ a.tags, t ≠ "" := by
  have h := savePack_cleans_tags samplePack
  refine ⟨h.2.2.1, ?_⟩
  exact h.2.2.2.2.2.2.2.2.1 _ (h.2.2.2.2.1.trans rfl)

/-- Claim C3: `select` evaluates exactly four candidate tiers in order —
mood-and-query match, mood-only match, query-only match, whole category —
the first non-empty tier wins and the returned item is drawn from that
tier, with every member of the winning tier reachable by some random
draw; tag matching is non-empty set intersection and empty query tags
impose no additional constraint. -/
theorem select_four_tiers (q : AssetQuery) (mood : Mood)
    (catalog : List ContentItem) (r : Nat) :
    (∀ i, i ∈ tier1 catalog q mood ↔ i ∈ catalog ∧ i.category = q.category ∧
      (∃ t, t ∈ i.tags ∧ t ∈ mood.tags) ∧
      (q.tags = [] ∨ ∃ t, t ∈ i.tags ∧ t ∈ q.tags)) ∧
    (∀ i, i ∈ tier2 catalog q mood ↔ i ∈ catalog ∧ i.category = q.category ∧
      (∃ t, t ∈ i.tags ∧ t ∈ mood.tags)) ∧
    (∀ i, i ∈ tier3 catalog q ↔ i ∈ catalog ∧ i.category = q.category ∧
      (q.tags = [] ∨ ∃ t, t ∈ i.tags ∧ t ∈ q.tags)) ∧
    (∀ i, i ∈ categoryItems catalog q ↔ i ∈ catalog ∧
      i.category = q.category) ∧
    (tier1 catalog q mood ≠ [] →
      candidates catalog q mood = tier1 catalog q mood) ∧
    (tier1 catalog q mood = [] → tier2 catalog q mood ≠ [] →
      candidates catalog q mood = tier2 catalog q mood) ∧
    (tier1 catalog q mood = [] → tier2 catalog q mood = [] →
      tier3 catalog q ≠ [] →
      candidates catalog q mood = tier3 catalog q) ∧
    (tier1 catalog q mood = [] → tier2 catalog q mood = [] →
      tier3 catalog q = [] →
      candidates catalog q mood = categoryItems catalog q) ∧
    (∀ item, select q mood catalog r = .ok item →
      item ∈ candidates catalog q mood) ∧
    (∀ item, item ∈ candidates catalog q mood →
      ∃ r2, select q mood catalog r2 = .ok item) := by
  refine ⟨?_, ?_, ?_, ?_, ?_, ?_, ?_, ?_, ?_, ?_⟩
  · intro i
    simp [tier1, List.mem_filter, mem_categoryItems, tagsIntersect_iff,
      queryConstraint_iff, and_assoc]
  · intro i
    simp [tier2, List.mem_filter, mem_categoryItems, tagsIntersect_iff,
      and_assoc]
  · intro i
    simp [tier3, List.mem_filter, mem_categoryItems, queryConstraint_iff,
      and_assoc]
  · intro i
    exact mem_categoryItems catalog q i
  · intro h1
    exact firstNonempty_cons_ne _ _ h1
  · intro h1 h2
    unfold candidates selectTiers
    rw [h1, firstNonempty_cons_nil]
    exact firstNonempty_cons_ne _ _ h2
  · intro h1 h2 h3
    unfold candidates selectTiers
    rw [h1, firstNonempty_cons_nil, h2, firstNonempty_cons_nil]
    exact firstNonempty_cons_ne _ _ h3
  · intro h1 h2 h3
    unfold candidates selectTiers
    rw [h1, firstNonempty_cons_nil, h2, firstNonempty_cons_nil, h3,
      firstNonempty_cons_nil]
    cases h4 : categoryItems catalog q with
    | nil => rfl
    | cons a l => exact firstNonempty_cons_ne _ _ (by simp)
  · intro item h
    exact select_ok_mem_candidates q mood catalog r item h
  · intro item h
    exact select_reaches_candidate q mood catalog item h

/-- Witness for C3 at concrete spec fixtures: tier 1 is non-empty for the
beach query under the nature-and-calm mood over catalog A and B, so the
winning tier is tier 1 and item A is reachable. -/
theorem select_four_tiers_witness :
    candidates catalogAB qBeach moodNC = tier1 catalogAB qBeach moodNC ∧
    ∃ r2, select qBeach moodNC catalogAB r2 = .ok itemA := by
  have h := select_four_tiers qBeach moodNC catalogAB 0
  exact ⟨h.2.2.2.2.1 (by decide), h.2.2.2.2.2.2.2.2.2 itemA (by decide)⟩

/-- Claim C4: `select` fails with `AssetNotFound` exactly when the query's
category has no items at all (the broadest fallback tier is empty), in
which case nothing is returned but the error; for a category with at
least one item it returns some item, and a returned item always belongs
to the catalog and to the query's category, never to a different one. -/
theorem select_asset_not_found (q : AssetQuery) (mood : Mood)
    (catalog : List ContentItem) (r : Nat) :
    (select q mood catalog r = .error .assetNotFound ↔
      categoryItems catalog q = []) ∧
    (categoryItems catalog q ≠ [] →
      ∃ item, select q mood catalog r = .ok item) ∧
    (∀ item, select q mood catalog r = .ok item →
      item ∈ catalog ∧ item.category = q.category) := by
  refine ⟨?_, ?_, ?_⟩
  · rw [← candidates_eq_nil_iff catalog q mood]
    unfold select
    cases hc : candidates catalog q mood with
    | nil => simp
    | cons x xs => simp
  · intro h
    have hc : candidates catalog q mood ≠ [] := by
      intro hnil
      exact h ((candidates_eq_nil_iff catalog q mood).mp hnil)
    unfold select
    cases hcc : candidates catalog q mood with
    | nil => exact absurd hcc hc
    | cons x xs => exact ⟨_, rfl⟩
  · intro item h
    have hmem := select_ok_mem_candidates q mood catalog r item h
    have hcat := candidates_subset_categoryItems catalog q mood item hmem
    exact (mem_categoryItems catalog q item).mp hcat

/-- Witness for C4 at concrete spec fixtures: the video category is empty
in catalog A and B so selection fails there, while the image category is
non-empty so the beach query succeeds. -/
theorem select_asset_not_found_witness :
    select qVideo moodNC catalogAB 0 = .error .assetNotFound ∧
    ∃ item, select qBeach moodNC catalogAB 7 = .ok item := by
  constructor
  · exact (select_asset_not_found qVideo moodNC catalogAB 0).1.mpr (by decide)
  · exact (select_asset_not_found qBeach moodNC catalogAB 7).2.1 (by decide)

/-- Claim C2: when the called operation's required capability is not in
the effective set, the Dispatcher returns `PermissionDenied` as the first
step, with zero observable side effect — the registry is untouched (no
handle created), nothing is selected, and no executor is invoked. -/
theorem dispatch_denied_no_side_effect (eff : Finset Capability)
    (mood : Mood) (catalog : List ContentItem)
    (executor : ContentItem → Bool) (call : OperationCall) (reg : Registry)
    (r : Nat) (h : call.requiredCap ∉ eff) :
    (dispatch eff mood catalog executor call reg r).result
        = .permissionDenied ∧
    (dispatch eff mood catalog executor call reg r).registry = reg ∧
    (dispatch eff mood catalog executor call reg r).selections = [] ∧
    (dispatch eff mood catalog executor call reg r).executorCalls = [] := by
  unfold dispatch
  rw [if_neg h]
  exact ⟨rfl, rfl, rfl, rfl⟩

/-- Witness for C2 at concrete data from the spec's end-to-end example:
the pack requires image and audio, the user grants image and video, so
the effective set is the intersection and an audio-play call is denied
with no effect on the empty registry. -/
theorem dispatch_denied_no_side_effect_witness :
    (dispatch (resolve {Capability.image, Capability.audio}
        {Capability.image, Capability.video}) moodNC catalogAB
        (fun _ => true) callAudio Registry.emptyReg 0).result
      = .permissionDenied ∧
    (dispatch (resolve {Capability.image, Capability.audio}
        {Capability.image, Capability.video}) moodNC catalogAB
        (fun _ => true) callAudio Registry.emptyReg 0).registry
      = Registry.emptyReg ∧
    (dispatch (resolve {Capability.image, Capability.audio}
        {Capability.image, Capability.video}) moodNC catalogAB
        (fun _ => true) callAudio Registry.emptyReg 0).selections = [] ∧
    (dispatch (resolve {Capability.image, Capability.audio}
        {Capability.image, Capability.video}) moodNC catalogAB
        (fun _ => true) callAudio Registry.emptyReg 0).executorCalls
      = [] :=
  dispatch_denied_no_side_effect _ moodNC catalogAB (fun _ => true)
    callAudio Registry.emptyReg 0 (by decide)

/-- Claim C5: `mutate` and `close` on an id that is unknown to the
registry or whose handle is Closed always fail with `InvalidHandle`; in
particular after a successful `close`, any mutation on that id and a
second `close` both fail with `InvalidHandle` rather than silently
succeeding. -/
theorem mutate_close_invalid_handle (reg reg' : Registry) (id : Nat) :
    (reg.lookup id = none →
      (∀ d, reg.mutate id d = .error .invalidHandle) ∧
      reg.close id = .error .invalidHandle) ∧
    (∀ hh, reg.lookup id = some hh → hh.state = .closed →
      (∀ d, reg.mutate id d = .error .invalidHandle) ∧
      reg.close id = .error .invalidHandle) ∧
    (reg.close id = .ok reg' →
      (∀ d, reg'.mutate id d = .error .invalidHandle) ∧
      reg'.close id = .error .invalidHandle) := by
  refine ⟨fun hl => mutate_close_error_of_none reg id hl,
    fun hh hl hs => mutate_close_error_of_closed reg id hh hl hs,
    fun hc => ?_⟩
  obtain ⟨hh, hl, hs, hr⟩ := close_ok_inv reg id reg' hc
  have hlook : reg'.lookup id = some { hh with state := .closed } := by
    rw [hr, lookup_setHandle, hl]
    rfl
  exact mutate_close_error_of_closed reg' id _ hlook rfl

/-- Witness for C5 at a concrete registry: under id zero, a registry
holding a Closed image handle rejects mutation and close; and closing the
Active version of that registry yields the Closed one, on which a
mutation with a concrete delta and a second close are both rejected. -/
theorem mutate_close_invalid_handle_witness :
    regClosed.mutate 0 {} = .error .invalidHandle ∧
    regClosed.close 0 = .error .invalidHandle ∧
    Registry.mutate ⟨1, [(0, ⟨"image", .closed, {}⟩)]⟩ 0
      { opacity := some 0 } = .error .invalidHandle := by
  have hactive : Registry.close ⟨1, [(0, ⟨"image", .active, {}⟩)]⟩ 0
      = .ok regClosed := rfl
  have h1 := (mutate_close_invalid_handle regClosed regClosed 0).2.1
    ⟨"image", .closed, {}⟩ (by decide) rfl
  have h2 := (mutate_close_invalid_handle
    ⟨1, [(0, ⟨"image", .active, {}⟩)]⟩ regClosed 0).2.2 hactive
  exact ⟨h1.1 {}, h1.2, h2.1 { opacity := some 0 }⟩

/-- Claim C6: within one turn, compile and execution failures share the
single retry bound three: three consecutive compile failures produce an
abort after exactly three compile attempts with zero dispatcher
invocations and an unchanged registry, and a fourth attempt never occurs
— the turn's end does not depend on what attempt four would do. -/
theorem three_compile_failures_abort (beh beh2 : Nat → AttemptBehavior)
    (reg : Registry)
    (h0 : beh 0 = .compileFail) (h1 : beh 1 = .compileFail)
    (h2 : beh 2 = .compileFail)
    (hagree : ∀ i, i < maxRetries → beh i = beh2 i) :
    runTurn beh reg = ⟨.abort, reg, 3, 0⟩ ∧
    runTurn beh2 reg = ⟨.abort, reg, 3, 0⟩ := by
  have e0 : beh2 0 = .compileFail := (hagree 0 (by decide)).symm.trans h0
  have e1 : beh2 1 = .compileFail := (hagree 1 (by decide)).symm.trans h1
  have e2 : beh2 2 = .compileFail := (hagree 2 (by decide)).symm.trans h2
  constructor
  · simp [runTurn, maxRetries, turnLoopAux, h0, h1, h2]
  · simp [runTurn, maxRetries, turnLoopAux, e0, e1, e2]

/-- Witness for C6: a behaviour that always fails to compile and one that
fails on the first three attempts but would complete on the fourth both
abort after three attempts with zero dispatcher calls. -/
theorem three_compile_failures_abort_witness :
    runTurn behAllFail Registry.emptyReg
      = ⟨.abort, Registry.emptyReg, 3, 0⟩ ∧
    runTurn behFailThree Registry.emptyReg
      = ⟨.abort, Registry.emptyReg, 3, 0⟩ := by
  refine three_compile_failures_abort behAllFail behFailThree
    Registry.emptyReg rfl rfl rfl ?_
  intro i hi
  have hi3 : i < 3 := hi
  simp [behAllFail, behFailThree, hi3]

/-- Claim C7: handle ids are never reused within a process lifetime —
along any sequence of registry operations the ids handed out by `create`
are strictly increasing, hence pairwise distinct, even when earlier
handles have been closed in between. -/
theorem handle_ids_never_reused (reg : Registry) (ops : List RegOp) :
    (createdIds reg ops).Pairwise (· < ·) ∧ (createdIds reg ops).Nodup := by
  refine ⟨createdIds_pairwise_lt ops reg, ?_⟩
  exact (createdIds_pairwise_lt ops reg).imp (fun h => Nat.ne_of_lt h)

/-- Claim C8: when a turn aborts, the registry it leaves behind is
exactly the result of the registry operations the scripts themselves
issued — the abort adds no operation of its own — so every handle that is
Active with some attributes after those explicit operations is still
Active with the same attributes at the end of the aborted turn. -/
theorem abort_preserves_handles (beh : Nat → AttemptBehavior)
    (reg : Registry) (h : (runTurn beh reg).outcome = .abort) :
    (runTurn beh reg).registry = runOps reg (turnOps beh) ∧
    ∀ id cat a,
      (runOps reg (turnOps beh)).lookup id = some ⟨cat, .active, a⟩ →
      (runTurn beh reg).registry.lookup id = some ⟨cat, .active, a⟩ := by
  have hr : (runTurn beh reg).registry = runOps reg (turnOps beh) :=
    turnLoop_registry beh maxRetries 0 reg 0 0
  exact ⟨hr, fun id cat a hl => hr ▸ hl⟩

/-- Witness for C8: a turn whose three attempts all fail to compile
aborts, and its final registry is exactly the run of the (empty) list of
script-issued operations over the starting registry. -/
theorem abort_preserves_handles_witness :
    (runTurn behAllFail regClosed).registry
      = runOps regClosed (turnOps behAllFail) :=
  (abort_preserves_handles behAllFail regClosed (by decide)).1

end GoonAI
